import Mathlib

/-!
Verification development for the voiceappdesktop assessment-delivery core.

Shallow embedding of `src/assessment_state_machine.py` together with the
event-router fragments of `src/interview_agent.py` and
`src/desktop/handlers/audio_handler.py`.

Modelling conventions:
* Python dicts are association lists keyed by `String`; assignment replaces
  the first binding for an existing key (or appends a fresh one), matching
  dict update semantics.
* `Optional[str]` is `Option String`; Python truthiness of a string value
  (`if not self.active_response_id`) is modelled explicitly (none or the
  empty string are falsy).
* Python floats are modelled as exact rationals; the only float arithmetic
  the claims touch (`bytes / 48000.0`) is exact at the claimed inputs.
* The `asyncio.Event` on a tracker is represented by the `audio_complete`
  flag it mirrors; the synchronous prefix of the one `async` method is
  modelled as a function returning `Option Bool` (`some b` = the method
  returns `b` immediately without suspending, `none` = it would suspend).
* Transcripts and keyword strings are `List Char`; byte strings are
  `List Nat`.
-/

namespace VoiceApp

/-- States during assessment delivery (`AssessmentState` enum). -/
inductive AssessmentState where
  | inactive
  | triggered
  | ack_generating
  | ack_speaking
  | report_generating
  | summary_sending
  | summary_speaking
  | goodbye_sending
  | goodbye_speaking
  | complete
deriving DecidableEq, Repr

/-- The `ResponseTracker` dataclass. The `audio_event` field (an `asyncio.Event`
set exactly when `audio_complete` is set) is represented by `audio_complete`
itself. -/
structure ResponseTracker where
  response_id : String
  state : AssessmentState
  audio_started : Bool := false
  audio_complete : Bool := false
  response_complete : Bool := false
  audio_bytes_received : Nat := 0
deriving DecidableEq, Repr

/-- Method `ResponseTracker.calculate_audio_duration`: 16-bit PCM, 24 kHz, mono,
so duration in seconds is `total_bytes / 48000`. Python computes this with
float division; we use exact rationals. -/
def calculate_audio_duration (t : ResponseTracker) : ℚ :=
  if t.audio_bytes_received = 0 then 0
  else (t.audio_bytes_received : ℚ) / 48000

/-- The `AssessmentStateMachine` object state. -/
structure AssessmentStateMachine where
  current_state : AssessmentState := AssessmentState.inactive
  response_trackers : List (String × ResponseTracker) := []
  active_response_id : Option String := none
  assessment_reason : String := ""
  verbal_summary : String := ""
deriving DecidableEq, Repr

/-- The freshly constructed machine (`__init__`). -/
def initialMachine : AssessmentStateMachine := {}

/-- Dict lookup `d.get(k)` / `k in d`. -/
def dictGet (d : List (String × ResponseTracker)) (k : String) :
    Option ResponseTracker :=
  (d.find? (fun p => p.1 == k)).map (fun p => p.2)

/-- Dict assignment `d[k] = v`: replace the binding for `k` if present,
else append a new one. -/
def dictSet (d : List (String × ResponseTracker)) (k : String)
    (v : ResponseTracker) : List (String × ResponseTracker) :=
  if (d.find? (fun p => p.1 == k)).isSome then
    d.map (fun p => if p.1 == k then (k, v) else p)
  else
    d ++ [(k, v)]

/-- Method `trigger_assessment`: succeeds only from INACTIVE; otherwise returns
`false` leaving the machine unchanged. -/
def trigger_assessment (m : AssessmentStateMachine) (reason : String) :
    Bool × AssessmentStateMachine :=
  if m.current_state ≠ AssessmentState.inactive then (false, m)
  else
    (true, { m with
      current_state := AssessmentState.triggered
      assessment_reason := reason })

/-- Method `start_acknowledgment_response`: guarded — a no-op unless the current
state is TRIGGERED. -/
def start_acknowledgment_response (m : AssessmentStateMachine)
    (response_id : String) : AssessmentStateMachine :=
  if m.current_state ≠ AssessmentState.triggered then m
  else
    { m with
      current_state := AssessmentState.ack_generating
      active_response_id := some response_id
      response_trackers := dictSet m.response_trackers response_id
        { response_id := response_id, state := AssessmentState.ack_generating } }

/-- Method `mark_audio_started`: for a registered response id, set the tracker's
`audio_started` flag and advance the machine state by the current state
alone (ACK_GENERATING to ACK_SPEAKING, SUMMARY_SENDING to SUMMARY_SPEAKING,
GOODBYE_SENDING to GOODBYE_SPEAKING); unknown ids are ignored. -/
def mark_audio_started (m : AssessmentStateMachine) (response_id : String) :
    AssessmentStateMachine :=
  match dictGet m.response_trackers response_id with
  | none => m
  | some t =>
    let m1 := { m with
      response_trackers := dictSet m.response_trackers response_id
        { t with audio_started := true } }
    if m1.current_state = AssessmentState.ack_generating then
      { m1 with current_state := AssessmentState.ack_speaking }
    else if m1.current_state = AssessmentState.summary_sending then
      { m1 with current_state := AssessmentState.summary_speaking }
    else if m1.current_state = AssessmentState.goodbye_sending then
      { m1 with current_state := AssessmentState.goodbye_speaking }
    else m1

/-- Method `track_audio_bytes`: accumulate bytes on a registered tracker. -/
def track_audio_bytes (m : AssessmentStateMachine) (response_id : String)
    (bytes_count : Nat) : AssessmentStateMachine :=
  match dictGet m.response_trackers response_id with
  | none => m
  | some t =>
    { m with
      response_trackers := dictSet m.response_trackers response_id
        { t with audio_bytes_received := t.audio_bytes_received + bytes_count } }

/-- Method `mark_audio_complete`: set `audio_complete` (and the event it mirrors)
on a registered tracker; unknown ids are ignored. -/
def mark_audio_complete (m : AssessmentStateMachine) (response_id : String) :
    AssessmentStateMachine :=
  match dictGet m.response_trackers response_id with
  | none => m
  | some t =>
    { m with
      response_trackers := dictSet m.response_trackers response_id
        { t with audio_complete := true } }

/-- Method `mark_response_complete`: set `response_complete` on a registered
tracker; unknown ids are ignored. -/
def mark_response_complete (m : AssessmentStateMachine) (response_id : String) :
    AssessmentStateMachine :=
  match dictGet m.response_trackers response_id with
  | none => m
  | some t =>
    { m with
      response_trackers := dictSet m.response_trackers response_id
        { t with response_complete := true } }

/-- Synchronous prefix of `wait_for_audio_complete`: `(some b, m)` means the
coroutine returns `b` immediately (before any suspension) leaving the
machine untouched; `(none, m)` means it goes on to await the tracker's
audio event (bounded by `timeout`). -/
def wait_for_audio_complete (m : AssessmentStateMachine) (response_id : String)
    (timeout : ℚ := 15) : Option Bool × AssessmentStateMachine :=
  match dictGet m.response_trackers response_id with
  | none => (some false, m)
  | some t => if t.audio_complete then (some true, m) else (none, m)

/-- Method `can_proceed_to_report_generation`. -/
def can_proceed_to_report_generation (m : AssessmentStateMachine) : Bool :=
  m.current_state = AssessmentState.ack_generating ∨
    m.current_state = AssessmentState.ack_speaking

/-- Method `start_report_generation`: guarded by
`can_proceed_to_report_generation`. -/
def start_report_generation (m : AssessmentStateMachine) :
    Bool × AssessmentStateMachine :=
  if ¬ can_proceed_to_report_generation m then (false, m)
  else (true, { m with current_state := AssessmentState.report_generating })

/-- Method `can_send_summary`: Python returns `False` unless the state is
REPORT_GENERATING and `active_response_id` is truthy (not `None`, not the
empty string); otherwise it returns `tracker and tracker.audio_complete`,
which is falsy when the active id has no tracker. -/
def can_send_summary (m : AssessmentStateMachine) : Bool :=
  if m.current_state ≠ AssessmentState.report_generating then false
  else
    match m.active_response_id with
    | none => false
    | some rid =>
      if rid = "" then false
      else
        match dictGet m.response_trackers rid with
        | none => false
        | some t => t.audio_complete

/-- Method `start_summary_response`: unconditional — no state guard in the code. -/
def start_summary_response (m : AssessmentStateMachine) (response_id : String)
    (verbal_summary : String) : AssessmentStateMachine :=
  { m with
    current_state := AssessmentState.summary_sending
    active_response_id := some response_id
    verbal_summary := verbal_summary
    response_trackers := dictSet m.response_trackers response_id
      { response_id := response_id, state := AssessmentState.summary_sending } }

/-- Method `can_send_goodbye`: true when the state is SUMMARY_SENDING or
SUMMARY_SPEAKING and the active response's tracker has `audio_complete`;
`response_trackers.get(None)` yields no tracker, which is falsy. -/
def can_send_goodbye (m : AssessmentStateMachine) : Bool :=
  if m.current_state = AssessmentState.summary_sending ∨
      m.current_state = AssessmentState.summary_speaking then
    match m.active_response_id with
    | none => false
    | some rid =>
      match dictGet m.response_trackers rid with
      | none => false
      | some t => t.audio_complete
  else false

/-- Method `start_goodbye_response`: unconditional — no state guard in the code. -/
def start_goodbye_response (m : AssessmentStateMachine) (response_id : String) :
    AssessmentStateMachine :=
  { m with
    current_state := AssessmentState.goodbye_sending
    active_response_id := some response_id
    response_trackers := dictSet m.response_trackers response_id
      { response_id := response_id, state := AssessmentState.goodbye_sending } }

/-- Method `mark_complete`: unconditional transition to COMPLETE. -/
def mark_complete (m : AssessmentStateMachine) : AssessmentStateMachine :=
  { m with current_state := AssessmentState.complete }

/-- Method `is_complete`. -/
def is_complete (m : AssessmentStateMachine) : Bool :=
  m.current_state = AssessmentState.complete

/-- One call on the machine's public mutating interface. -/
inductive MachineOp where
  | trigger (reason : String)
  | startAck (response_id : String)
  | audioStarted (response_id : String)
  | audioBytes (response_id : String) (n : Nat)
  | audioComplete (response_id : String)
  | responseComplete (response_id : String)
  | startReportGen
  | startSummary (response_id : String) (verbal_summary : String)
  | startGoodbye (response_id : String)
  | finish
deriving DecidableEq, Repr

/-- Apply one operation (discarding any Boolean result). -/
def applyOp (m : AssessmentStateMachine) : MachineOp → AssessmentStateMachine
  | MachineOp.trigger r => (trigger_assessment m r).2
  | MachineOp.startAck rid => start_acknowledgment_response m rid
  | MachineOp.audioStarted rid => mark_audio_started m rid
  | MachineOp.audioBytes rid n => track_audio_bytes m rid n
  | MachineOp.audioComplete rid => mark_audio_complete m rid
  | MachineOp.responseComplete rid => mark_response_complete m rid
  | MachineOp.startReportGen => (start_report_generation m).2
  | MachineOp.startSummary rid vs => start_summary_response m rid vs
  | MachineOp.startGoodbye rid => start_goodbye_response m rid
  | MachineOp.finish => mark_complete m

/-- Run a call sequence from a starting machine state. -/
def runOps (m : AssessmentStateMachine) (ops : List MachineOp) :
    AssessmentStateMachine :=
  ops.foldl applyOp m

/-- Well-formed call sequences: acknowledgment registrations carry a
non-empty response id (the event router only registers ids it has checked
to be truthy). -/
def opOk : MachineOp → Bool
  | MachineOp.startAck rid => ! (rid == "")
  | _ => true

/-- All operations of a sequence are well formed. -/
def validOps (ops : List MachineOp) : Bool :=
  ops.all opOk

/-! ### Association-list (dict) lemmas -/

theorem findUpdate_self (d : List (String × ResponseTracker))
    (k : String) (v : ResponseTracker)
    (h : (d.find? (fun p => p.1 == k)).isSome = true) :
    (d.map (fun p => if p.1 == k then (k, v) else p)).find?
      (fun p => p.1 == k) = some (k, v) := by
  induction d with
  | nil => simp at h
  | cons p d ih =>
    by_cases hp : (p.1 == k) = true
    · rw [List.map_cons, if_pos hp]
      exact List.find?_cons_of_pos _ (by simp)
    · rw [List.find?_cons_of_neg d (by simp [hp])] at h
      rw [List.map_cons, if_neg hp]
      rw [List.find?_cons_of_neg _ (by simp [hp])]
      exact ih h

theorem findUpdate_ne (d : List (String × ResponseTracker))
    (k k' : String) (v : ResponseTracker) (h : (k == k') = false) :
    (d.map (fun p => if p.1 == k then (k, v) else p)).find?
      (fun p => p.1 == k') = d.find? (fun p => p.1 == k') := by
  induction d with
  | nil => simp
  | cons p d ih =>
    by_cases hp : (p.1 == k) = true
    · have hpk : p.1 = k := beq_iff_eq.mp hp
      have hp' : (p.1 == k') = false := by rw [hpk]; exact h
      rw [List.map_cons, if_pos hp]
      simp only [List.find?_cons, hp', h]
      exact ih
    · rw [List.map_cons, if_neg hp]
      by_cases hp' : (p.1 == k') = true
      · simp only [List.find?_cons, hp']
      · simp only [List.find?_cons, hp']
        exact ih

theorem findAppend_of_none (d l : List (String × ResponseTracker))
    (f : String × ResponseTracker → Bool) (h : d.find? f = none) :
    (d ++ l).find? f = l.find? f := by
  induction d with
  | nil => simp
  | cons p d ih =>
    by_cases hp : f p = true
    · rw [List.find?_cons_of_pos d hp] at h
      exact absurd h (by simp)
    · rw [List.find?_cons_of_neg d (by simp [hp])] at h
      rw [List.cons_append, List.find?_cons_of_neg _ (by simp [hp])]
      exact ih h

theorem findAppend_of_some (d l : List (String × ResponseTracker))
    (f : String × ResponseTracker → Bool) (q : String × ResponseTracker)
    (h : d.find? f = some q) : (d ++ l).find? f = some q := by
  induction d with
  | nil => simp at h
  | cons p d ih =>
    by_cases hp : f p = true
    · rw [List.find?_cons_of_pos d hp] at h
      rw [List.cons_append, List.find?_cons_of_pos _ hp]
      exact h
    · rw [List.find?_cons_of_neg d (by simp [hp])] at h
      rw [List.cons_append, List.find?_cons_of_neg _ (by simp [hp])]
      exact ih h

theorem dictGet_dictSet_self (d : List (String × ResponseTracker))
    (k : String) (v : ResponseTracker) :
    dictGet (dictSet d k v) k = some v := by
  unfold dictGet dictSet
  by_cases h : (d.find? (fun p => p.1 == k)).isSome = true
  · rw [if_pos h]
    rw [findUpdate_self d k v h]
    rfl
  · rw [if_neg h]
    have hnone : d.find? (fun p => p.1 == k) = none :=
      Option.not_isSome_iff_eq_none.mp (by simpa using h)
    rw [findAppend_of_none d _ _ hnone]
    simp

theorem dictGet_dictSet_ne (d : List (String × ResponseTracker))
    (k k' : String) (v : ResponseTracker) (h : ¬ k' = k) :
    dictGet (dictSet d k v) k' = dictGet d k' := by
  have hkk' : (k == k') = false := by
    apply beq_eq_false_iff_ne.mpr
    intro hc
    exact h hc.symm
  unfold dictGet dictSet
  by_cases hs : (d.find? (fun p => p.1 == k)).isSome = true
  · rw [if_pos hs]
    rw [findUpdate_ne d k k' v hkk']
  · rw [if_neg hs]
    rcases ho : d.find? (fun p => p.1 == k') with _ | q
    · rw [findAppend_of_none d _ _ ho, ho]
      simp [hkk']
    · rw [findAppend_of_some d _ _ q ho, ho]

/-! ### C2: trigger is guarded by INACTIVE and idempotent on failure -/

/-- C2: `trigger(reason)` succeeds (returns `true`, moves INACTIVE to
TRIGGERED, stores the reason) exactly when called in INACTIVE; in every
other state it returns `false` and leaves the machine completely
unchanged, so two successive triggers yield `true` then `false` with the
phase still TRIGGERED. -/
theorem trigger_assessment_spec (m : AssessmentStateMachine) (r r2 : String) :
    (m.current_state = AssessmentState.inactive →
      trigger_assessment m r =
        (true, { m with
          current_state := AssessmentState.triggered
          assessment_reason := r }) ∧
      trigger_assessment (trigger_assessment m r).2 r2 =
        (false, (trigger_assessment m r).2) ∧
      (trigger_assessment m r).2.current_state = AssessmentState.triggered) ∧
    (m.current_state ≠ AssessmentState.inactive →
      trigger_assessment m r = (false, m)) := by
  constructor
  · intro h
    refine ⟨by simp [trigger_assessment, h], by simp [trigger_assessment, h],
      by simp [trigger_assessment, h]⟩
  · intro h
    simp [trigger_assessment, h]

/-- Witness for C2 at the freshly constructed machine. -/
theorem trigger_assessment_spec_witness :
    trigger_assessment initialMachine "ceiling" =
      (true, { initialMachine with
        current_state := AssessmentState.triggered
        assessment_reason := "ceiling" }) ∧
    trigger_assessment (trigger_assessment initialMachine "ceiling").2 "again" =
      (false, (trigger_assessment initialMachine "ceiling").2) ∧
    (trigger_assessment initialMachine "ceiling").2.current_state =
      AssessmentState.triggered :=
  (trigger_assessment_spec initialMachine "ceiling" "again").1 rfl

/-! ### C5: canSendGoodbye -/

/-- C5: `canSendGoodbye()` is true iff the phase is SUMMARY_SENDING or
SUMMARY_SPEAKING and the active response's tracker has `audio_complete`;
in particular it is false whenever the active tracker's audio is not
complete, even in SUMMARY_SPEAKING. -/
theorem can_send_goodbye_iff (m : AssessmentStateMachine) :
    can_send_goodbye m = true ↔
      ((m.current_state = AssessmentState.summary_sending ∨
        m.current_state = AssessmentState.summary_speaking) ∧
       ∃ rid t, m.active_response_id = some rid ∧
         dictGet m.response_trackers rid = some t ∧
         t.audio_complete = true) := by
  unfold can_send_goodbye
  by_cases h : m.current_state = AssessmentState.summary_sending ∨
      m.current_state = AssessmentState.summary_speaking
  · rw [if_pos h]
    cases ha : m.active_response_id with
    | none => simp [ha, h]
    | some rid =>
      cases hg : dictGet m.response_trackers rid with
      | none => simp [h, hg]
      | some t => simp [h, hg]
  · rw [if_neg h]
    simp [h]

/-! ### C6: waitForAudioComplete immediate paths -/

/-- C6: `waitForAudioComplete(response_id, timeout)` returns `false`
immediately (without suspending and without waiting for the timeout) when
the response id has no tracker, and returns `true` immediately when the
tracker is already marked `audio_complete`; in both immediate cases the
machine is unchanged. -/
theorem wait_for_audio_complete_immediate (m : AssessmentStateMachine)
    (rid : String) (timeout : ℚ) :
    (dictGet m.response_trackers rid = none →
      wait_for_audio_complete m rid timeout = (some false, m)) ∧
    (∀ t, dictGet m.response_trackers rid = some t → t.audio_complete = true →
      wait_for_audio_complete m rid timeout = (some true, m)) := by
  constructor
  · intro h
    simp [wait_for_audio_complete, h]
  · intro t h hc
    simp [wait_for_audio_complete, h, hc]

/-- Concrete machine with one completed tracker, for the C6 witness. -/
def waitWitnessMachine : AssessmentStateMachine :=
  { initialMachine with
    current_state := AssessmentState.ack_generating
    active_response_id := some "resp_a"
    response_trackers :=
      [("resp_a",
        { response_id := "resp_a"
          state := AssessmentState.ack_generating
          audio_complete := true })] }

/-- Witness for C6: unknown id returns false at once, completed tracker
returns true at once, machine untouched in both cases. -/
theorem wait_for_audio_complete_immediate_witness :
    wait_for_audio_complete waitWitnessMachine "unknown" 15 =
      (some false, waitWitnessMachine) ∧
    wait_for_audio_complete waitWitnessMachine "resp_a" 15 =
      (some true, waitWitnessMachine) :=
  ⟨(wait_for_audio_complete_immediate waitWitnessMachine "unknown" 15).1 rfl,
   (wait_for_audio_complete_immediate waitWitnessMachine "resp_a" 15).2
     { response_id := "resp_a"
       state := AssessmentState.ack_generating
       audio_complete := true } rfl rfl⟩

/-! ### C7: estimated audio duration -/

/-- C7: for every tracker the estimated duration is
`audio_bytes_received / 48000` seconds (16-bit mono PCM at 24 kHz);
96000 bytes give exactly 2 seconds and zero bytes give 0. -/
theorem calculate_audio_duration_spec :
    (∀ t : ResponseTracker,
      calculate_audio_duration t = (t.audio_bytes_received : ℚ) / 48000) ∧
    calculate_audio_duration
      { response_id := "r"
        state := AssessmentState.summary_sending
        audio_bytes_received := 96000 } = 2 ∧
    calculate_audio_duration
      { response_id := "r"
        state := AssessmentState.summary_sending } = 0 := by
  refine ⟨fun t => ?_, ?_, ?_⟩
  · unfold calculate_audio_duration
    by_cases h : t.audio_bytes_received = 0
    · rw [if_pos h, h]
      norm_num
    · rw [if_neg h]
  · unfold calculate_audio_duration
    norm_num
  · rfl

/-! ### C8: odd-length audio payload padding -/

/-- Defensive padding performed by the audio-delta handlers
(`InterviewAgent.event_handler` and
`AudioEventHandler._handle_audio_delta`): a decoded payload of odd byte
length gets one zero byte appended before the bytes are forwarded to the
playback queue; even payloads are forwarded unchanged. -/
def pad_audio_bytes (audio_bytes : List Nat) : List Nat :=
  if audio_bytes.length % 2 ≠ 0 then audio_bytes ++ [0] else audio_bytes

/-- C8: odd payloads are padded with a single zero byte (7 bytes become
8), even payloads pass through unchanged, and the forwarded payload always
has even length; the transformation is total (never raises). -/
theorem pad_audio_bytes_spec (b : List Nat) :
    (b.length % 2 = 1 →
      pad_audio_bytes b = b ++ [0] ∧
      (pad_audio_bytes b).length = b.length + 1) ∧
    (b.length % 2 = 0 → pad_audio_bytes b = b) ∧
    (pad_audio_bytes b).length % 2 = 0 ∧
    (b.length = 7 → (pad_audio_bytes b).length = 8) := by
  rcases Nat.mod_two_eq_zero_or_one b.length with h | h
  · refine ⟨fun h1 => by omega, fun _ => ?_, ?_, fun h7 => by omega⟩
    · simp [pad_audio_bytes, h]
    · simp [pad_audio_bytes, h]
  · have hne : ¬ b.length % 2 = 0 := by omega
    refine ⟨fun _ => ⟨?_, ?_⟩, fun h0 => by omega, ?_, fun h7 => ?_⟩
    · simp [pad_audio_bytes, hne]
    · simp [pad_audio_bytes, hne]
    · simp [pad_audio_bytes, hne]
      omega
    · simp [pad_audio_bytes, hne, h7]

/-- Witness for C8 on a concrete 7-byte payload. -/
theorem pad_audio_bytes_spec_witness :
    pad_audio_bytes [1, 2, 3, 4, 5, 6, 7] = [1, 2, 3, 4, 5, 6, 7, 0] ∧
    (pad_audio_bytes [1, 2, 3, 4, 5, 6, 7]).length = 8 :=
  ⟨((pad_audio_bytes_spec [1, 2, 3, 4, 5, 6, 7]).1 rfl).1,
   (pad_audio_bytes_spec [1, 2, 3, 4, 5, 6, 7]).2.2.2 rfl⟩

/-! ### C1: registration guards (counterexample and amended statement) -/

/-- C1 counterexample: the claim says an illegal registration is a no-op
that leaves the phase unchanged, with no regression except the jump to
COMPLETE. But `start_summary_response` has no state guard: registering a
summary response on a machine in COMPLETE (where no transition is legal)
changes the phase to SUMMARY_SENDING — a state change and a regression. -/
theorem start_summary_response_unguarded_cex :
    (mark_complete initialMachine).current_state = AssessmentState.complete ∧
    (start_summary_response (mark_complete initialMachine) "resp_s"
        "summary").current_state = AssessmentState.summary_sending ∧
    AssessmentState.summary_sending ≠ AssessmentState.complete :=
  ⟨rfl, rfl, by decide⟩

/-- C1 amended: only the acknowledgment registration and
`start_report_generation` are guarded — an ack registration outside
TRIGGERED is a full no-op and report generation outside
ACK_GENERATING/ACK_SPEAKING is a `false` no-op — while summary and goodbye
registrations are unconditional and always set the phase to
SUMMARY_SENDING / GOODBYE_SENDING regardless of the current state. -/
theorem registration_guard_amended (m : AssessmentStateMachine)
    (rid vs : String) :
    (m.current_state ≠ AssessmentState.triggered →
      start_acknowledgment_response m rid = m) ∧
    (m.current_state = AssessmentState.triggered →
      (start_acknowledgment_response m rid).current_state =
        AssessmentState.ack_generating) ∧
    (¬ (m.current_state = AssessmentState.ack_generating ∨
        m.current_state = AssessmentState.ack_speaking) →
      start_report_generation m = (false, m)) ∧
    ((m.current_state = AssessmentState.ack_generating ∨
      m.current_state = AssessmentState.ack_speaking) →
      start_report_generation m =
        (true, { m with current_state := AssessmentState.report_generating })) ∧
    (start_summary_response m rid vs).current_state =
      AssessmentState.summary_sending ∧
    (start_goodbye_response m rid).current_state =
      AssessmentState.goodbye_sending := by
  refine ⟨fun h => ?_, fun h => ?_, fun h => ?_, fun h => ?_, rfl, rfl⟩
  · simp [start_acknowledgment_response, h]
  · simp [start_acknowledgment_response, h]
  · simp [start_report_generation, can_proceed_to_report_generation, h]
  · simp [start_report_generation, can_proceed_to_report_generation, h]

/-- Witness for the amended C1 statement at concrete machines. -/
theorem registration_guard_amended_witness :
    start_acknowledgment_response initialMachine "r1" = initialMachine ∧
    (start_acknowledgment_response
        (trigger_assessment initialMachine "x").2 "r1").current_state =
      AssessmentState.ack_generating ∧
    start_report_generation initialMachine = (false, initialMachine) :=
  ⟨(registration_guard_amended initialMachine "r1" "s").1 (by decide),
   (registration_guard_amended (trigger_assessment initialMachine "x").2
      "r1" "s").2.1 (by decide),
   (registration_guard_amended initialMachine "r1" "s").2.2.1 (by decide)⟩

/-! ### C3: onAudioChunk routing (counterexample and amended statement) -/

/-- Machine after trigger, ack registration of `resp_ack`, and summary
registration of `resp_sum`: the active response is `resp_sum`, yet
`resp_ack` is still registered. -/
def c3Machine : AssessmentStateMachine :=
  runOps initialMachine
    [MachineOp.trigger "ceiling", MachineOp.startAck "resp_ack",
     MachineOp.startSummary "resp_sum" "summary"]

/-- The tracker registered for `resp_ack` in `c3Machine`. -/
def c3AckTracker : ResponseTracker :=
  { response_id := "resp_ack", state := AssessmentState.ack_generating }

/-- C3 counterexample: the claim says the phase advances only when the
chunk belongs to the currently active response. But a first chunk for
`resp_ack` — registered, yet no longer the active response (`resp_sum`
is) — still advances SUMMARY_SENDING to SUMMARY_SPEAKING. -/
theorem mark_audio_started_nonactive_cex :
    c3Machine.active_response_id = some "resp_sum" ∧
    c3Machine.current_state = AssessmentState.summary_sending ∧
    dictGet c3Machine.response_trackers "resp_ack" = some c3AckTracker ∧
    "resp_ack" ≠ "resp_sum" ∧
    (mark_audio_started c3Machine "resp_ack").current_state =
      AssessmentState.summary_speaking :=
  ⟨rfl, rfl, rfl, by decide, rfl⟩

/-- The state step performed by `mark_audio_started`, a function of the
current state only. -/
def advance_on_audio (s : AssessmentState) : AssessmentState :=
  match s with
  | AssessmentState.ack_generating => AssessmentState.ack_speaking
  | AssessmentState.summary_sending => AssessmentState.summary_speaking
  | AssessmentState.goodbye_sending => AssessmentState.goodbye_speaking
  | s => s

/-- Characterization of `mark_audio_started`: no-op on unregistered ids,
otherwise tracker flag update plus the state step above. -/
theorem mark_audio_started_eq (m : AssessmentStateMachine) (rid : String) :
    (dictGet m.response_trackers rid = none →
      mark_audio_started m rid = m) ∧
    (∀ t, dictGet m.response_trackers rid = some t →
      mark_audio_started m rid =
        { m with
          current_state := advance_on_audio m.current_state
          response_trackers := dictSet m.response_trackers rid
            { t with audio_started := true } }) := by
  constructor
  · intro h
    simp [mark_audio_started, h]
  · intro t h
    rcases hs : m.current_state <;>
      simp [mark_audio_started, h, advance_on_audio, hs]

/-- C3 amended: `onAudioChunk(rid)` on an unregistered id is a complete
no-op; on any registered id it sets that tracker's `audio_started` flag
and advances the phase purely as a function of the current phase
(ACK_GENERATING to ACK_SPEAKING, SUMMARY_SENDING to SUMMARY_SPEAKING,
GOODBYE_SENDING to GOODBYE_SPEAKING), regardless of whether `rid` is the
active response or whether this is its first chunk. -/
theorem mark_audio_started_amended (m : AssessmentStateMachine)
    (rid : String) :
    (dictGet m.response_trackers rid = none →
      mark_audio_started m rid = m) ∧
    (∀ t, dictGet m.response_trackers rid = some t →
      mark_audio_started m rid =
        { m with
          current_state := advance_on_audio m.current_state
          response_trackers := dictSet m.response_trackers rid
            { t with audio_started := true } }) :=
  mark_audio_started_eq m rid

/-- Witness for the amended C3 statement on `c3Machine`. -/
theorem mark_audio_started_amended_witness :
    mark_audio_started c3Machine "nope" = c3Machine ∧
    mark_audio_started c3Machine "resp_ack" =
      { c3Machine with
        current_state := advance_on_audio c3Machine.current_state
        response_trackers := dictSet c3Machine.response_trackers "resp_ack"
          { c3AckTracker with audio_started := true } } :=
  ⟨(mark_audio_started_amended c3Machine "nope").1 rfl,
   (mark_audio_started_amended c3Machine "resp_ack").2 c3AckTracker rfl⟩

/-! ### C4: canSendSummary and the acknowledgment-tracker invariant -/

/-- Phases between acknowledgment registration and summary registration. -/
def AckPhase (s : AssessmentState) : Prop :=
  s = AssessmentState.ack_generating ∨ s = AssessmentState.ack_speaking ∨
    s = AssessmentState.report_generating

/-- Invariant: throughout the ack/report phases the active response id is
the (non-empty) id registered by `start_acknowledgment_response`, and its
tracker is the acknowledgment tracker (trackers record the phase they were
registered in and never change it). -/
def ackInv (m : AssessmentStateMachine) : Prop :=
  AckPhase m.current_state →
    ∃ rid t, m.active_response_id = some rid ∧ ¬ rid = "" ∧
      dictGet m.response_trackers rid = some t ∧
      t.state = AssessmentState.ack_generating

theorem ackPhase_advance (s : AssessmentState) :
    AckPhase (advance_on_audio s) → AckPhase s := by
  cases s <;> simp [advance_on_audio, AckPhase]

/-- Updating a tracker without touching its `state` field preserves the
invariant, provided the state step does not enter the ack phases from
outside them. -/
theorem ackInv_update_tracker (m : AssessmentStateMachine) (rid : String)
    (t t' : ResponseTracker) (hg : dictGet m.response_trackers rid = some t)
    (hstate_pres : t'.state = t.state) (s' : AssessmentState)
    (hph_pres : AckPhase s' → AckPhase m.current_state) (hm : ackInv m) :
    ackInv { m with
      current_state := s'
      response_trackers := dictSet m.response_trackers rid t' } := by
  intro hph
  obtain ⟨rid0, t0, hact, hne, hget, hst⟩ := hm (hph_pres hph)
  by_cases he : rid0 = rid
  · subst he
    have ht0 : t0 = t := by
      rw [hget] at hg
      exact Option.some.inj hg
    refine ⟨rid0, t', hact, hne, ?_, ?_⟩
    · exact dictGet_dictSet_self m.response_trackers rid0 t'
    · rw [hstate_pres, ← ht0]
      exact hst
  · refine ⟨rid0, t0, hact, hne, ?_, hst⟩
    rw [dictGet_dictSet_ne m.response_trackers rid rid0 t' he]
    exact hget

theorem ackInv_applyOp (m : AssessmentStateMachine) (op : MachineOp)
    (hm : ackInv m) (hop : opOk op = true) : ackInv (applyOp m op) := by
  cases op with
  | trigger r =>
    by_cases h : m.current_state = AssessmentState.inactive
    · intro hph
      exfalso
      have hc : (applyOp m (MachineOp.trigger r)).current_state =
          AssessmentState.triggered := by
        simp [applyOp, trigger_assessment, h]
      rw [hc] at hph
      rcases hph with h1 | h1 | h1 <;> exact AssessmentState.noConfusion h1
    · have hnop : applyOp m (MachineOp.trigger r) = m := by
        simp [applyOp, trigger_assessment, h]
      rw [hnop]
      exact hm
  | startAck rid =>
    have hrid : ¬ rid = "" := by
      simp [opOk] at hop
      exact hop
    by_cases h : m.current_state = AssessmentState.triggered
    · have happ : applyOp m (MachineOp.startAck rid) =
          { m with
            current_state := AssessmentState.ack_generating
            active_response_id := some rid
            response_trackers := dictSet m.response_trackers rid
              { response_id := rid, state := AssessmentState.ack_generating } } := by
        simp [applyOp, start_acknowledgment_response, h]
      rw [happ]
      intro _
      exact ⟨rid, { response_id := rid, state := AssessmentState.ack_generating },
        rfl, hrid, dictGet_dictSet_self m.response_trackers rid _, rfl⟩
    · have hnop : applyOp m (MachineOp.startAck rid) = m := by
        simp [applyOp, start_acknowledgment_response, h]
      rw [hnop]
      exact hm
  | audioStarted rid =>
    rcases hg : dictGet m.response_trackers rid with _ | t
    · have hnop : applyOp m (MachineOp.audioStarted rid) = m := by
        simp [applyOp, mark_audio_started, hg]
      rw [hnop]
      exact hm
    · have happ : applyOp m (MachineOp.audioStarted rid) =
          { m with
            current_state := advance_on_audio m.current_state
            response_trackers := dictSet m.response_trackers rid
              { t with audio_started := true } } :=
        (mark_audio_started_eq m rid).2 t hg
      rw [happ]
      exact ackInv_update_tracker m rid t { t with audio_started := true }
        hg rfl _ (ackPhase_advance m.current_state) hm
  | audioBytes rid n =>
    rcases hg : dictGet m.response_trackers rid with _ | t
    · have hnop : applyOp m (MachineOp.audioBytes rid n) = m := by
        simp [applyOp, track_audio_bytes, hg]
      rw [hnop]
      exact hm
    · have happ : applyOp m (MachineOp.audioBytes rid n) =
          { m with
            current_state := m.current_state
            response_trackers := dictSet m.response_trackers rid
              { t with audio_bytes_received := t.audio_bytes_received + n } } := by
        simp [applyOp, track_audio_bytes, hg]
      rw [happ]
      exact ackInv_update_tracker m rid t
        { t with audio_bytes_received := t.audio_bytes_received + n }
        hg rfl _ (fun hp => hp) hm
  | audioComplete rid =>
    rcases hg : dictGet m.response_trackers rid with _ | t
    · have hnop : applyOp m (MachineOp.audioComplete rid) = m := by
        simp [applyOp, mark_audio_complete, hg]
      rw [hnop]
      exact hm
    · have happ : applyOp m (MachineOp.audioComplete rid) =
          { m with
            current_state := m.current_state
            response_trackers := dictSet m.response_trackers rid
              { t with audio_complete := true } } := by
        simp [applyOp, mark_audio_complete, hg]
      rw [happ]
      exact ackInv_update_tracker m rid t { t with audio_complete := true }
        hg rfl _ (fun hp => hp) hm
  | responseComplete rid =>
    rcases hg : dictGet m.response_trackers rid with _ | t
    · have hnop : applyOp m (MachineOp.responseComplete rid) = m := by
        simp [applyOp, mark_response_complete, hg]
      rw [hnop]
      exact hm
    · have happ : applyOp m (MachineOp.responseComplete rid) =
          { m with
            current_state := m.current_state
            response_trackers := dictSet m.response_trackers rid
              { t with response_complete := true } } := by
        simp [applyOp, mark_response_complete, hg]
      rw [happ]
      exact ackInv_update_tracker m rid t { t with response_complete := true }
        hg rfl _ (fun hp => hp) hm
  | startReportGen =>
    by_cases h : can_proceed_to_report_generation m = true
    · have happ : applyOp m MachineOp.startReportGen =
          { m with current_state := AssessmentState.report_generating } := by
        simp [applyOp, start_report_generation, h]
      rw [happ]
      intro _
      have hph : AckPhase m.current_state := by
        unfold can_proceed_to_report_generation at h
        simp only [decide_eq_true_eq] at h
        rcases h with h | h
        · exact Or.inl h
        · exact Or.inr (Or.inl h)
      obtain ⟨rid0, t0, hact, hne, hget, hst⟩ := hm hph
      exact ⟨rid0, t0, hact, hne, hget, hst⟩
    · have hnop : applyOp m MachineOp.startReportGen = m := by
        simp [applyOp, start_report_generation, h]
      rw [hnop]
      exact hm
  | startSummary rid vs =>
    intro hph
    exfalso
    have hc : (applyOp m (MachineOp.startSummary rid vs)).current_state =
        AssessmentState.summary_sending := rfl
    rw [hc] at hph
    rcases hph with h1 | h1 | h1 <;> exact AssessmentState.noConfusion h1
  | startGoodbye rid =>
    intro hph
    exfalso
    have hc : (applyOp m (MachineOp.startGoodbye rid)).current_state =
        AssessmentState.goodbye_sending := rfl
    rw [hc] at hph
    rcases hph with h1 | h1 | h1 <;> exact AssessmentState.noConfusion h1
  | finish =>
    intro hph
    exfalso
    have hc : (applyOp m MachineOp.finish).current_state =
        AssessmentState.complete := rfl
    rw [hc] at hph
    rcases hph with h1 | h1 | h1 <;> exact AssessmentState.noConfusion h1

theorem ackInv_runOps (ops : List MachineOp) (h : validOps ops = true) :
    ackInv (runOps initialMachine ops) := by
  have hinit : ackInv initialMachine := by
    intro hph
    rcases hph with h1 | h1 | h1 <;> exact absurd h1 (by decide)
  suffices H : ∀ (l : List MachineOp) (m : AssessmentStateMachine),
      ackInv m → validOps l = true → ackInv (runOps m l) from
    H ops initialMachine hinit h
  intro l
  induction l with
  | nil =>
    intro m hm _
    exact hm
  | cons op l ih =>
    intro m hm hv
    have hv' : opOk op = true ∧ validOps l = true := by
      simpa [validOps, List.all_cons] using hv
    exact ih (applyOp m op) (ackInv_applyOp m op hm hv'.1) hv'.2

/-- C4: on every machine reached by a well-formed call sequence,
`canSendSummary()` is true iff the phase is REPORT_GENERATING and the
acknowledgment response's tracker (the active tracker, registered in
phase ACK_GENERATING) has `audio_complete` set; in particular it is false
in every other phase, and false in REPORT_GENERATING while the ack audio
is incomplete. -/
theorem can_send_summary_iff (ops : List MachineOp)
    (hops : validOps ops = true) :
    can_send_summary (runOps initialMachine ops) = true ↔
      ((runOps initialMachine ops).current_state =
          AssessmentState.report_generating ∧
       ∃ rid t,
         (runOps initialMachine ops).active_response_id = some rid ∧
         dictGet (runOps initialMachine ops).response_trackers rid = some t ∧
         t.state = AssessmentState.ack_generating ∧
         t.audio_complete = true) := by
  have hinv : ackInv (runOps initialMachine ops) := ackInv_runOps ops hops
  set m := runOps initialMachine ops with hmdef
  constructor
  · intro h
    by_cases hs : m.current_state = AssessmentState.report_generating
    · rcases ha : m.active_response_id with _ | rid
      · simp [can_send_summary, hs, ha] at h
      · by_cases hrid : rid = ""
        · simp [can_send_summary, hs, ha, hrid] at h
        · rcases hg : dictGet m.response_trackers rid with _ | t
          · simp [can_send_summary, hs, ha, hrid, hg] at h
          · simp only [can_send_summary, hs, ha, hrid, hg] at h
            obtain ⟨rid0, t0, hact0, hne0, hget0, hst0⟩ :=
              hinv (Or.inr (Or.inr hs))
            rw [ha] at hact0
            have hr : rid = rid0 := Option.some.inj hact0
            rw [← hr] at hget0
            rw [hg] at hget0
            have ht : t = t0 := Option.some.inj hget0
            rw [← ht] at hst0
            exact ⟨hs, rid, t, rfl, hg, hst0, by simpa using h⟩
    · simp [can_send_summary, hs] at h
  · rintro ⟨hs, rid, t, ha, hg, hst, hc⟩
    obtain ⟨rid0, t0, hact0, hne0, hget0, hst0⟩ :=
      hinv (Or.inr (Or.inr hs))
    have hr : rid = rid0 := by
      rw [ha] at hact0
      exact Option.some.inj hact0
    have hrid : ¬ rid = "" := by
      rw [hr]
      exact hne0
    simp [can_send_summary, hs, ha, hrid, hg, hc]

/-- Call sequence reaching REPORT_GENERATING with completed ack audio. -/
def c4Ops : List MachineOp :=
  [MachineOp.trigger "ceiling", MachineOp.startAck "resp_ack",
   MachineOp.audioComplete "resp_ack", MachineOp.startReportGen]

/-- Witness for C4: after `c4Ops` the summary may be sent, via the
right-to-left direction at a concrete tracker. -/
theorem can_send_summary_iff_witness :
    validOps c4Ops = true ∧
    can_send_summary (runOps initialMachine c4Ops) = true :=
  ⟨by decide,
   (can_send_summary_iff c4Ops (by decide)).mpr
     ⟨rfl, "resp_ack",
      { response_id := "resp_ack"
        state := AssessmentState.ack_generating
        audio_complete := true },
      rfl, rfl, rfl, rfl⟩⟩

/-! ### C9: trigger_assessment argument parsing -/

/-- A Python value as seen by the function-call handler: a string, a dict
(JSON object), or anything else (numbers, lists, booleans, None — the
handler only ever distinguishes strings and dicts). -/
inductive PyValue where
  | str (s : String)
  | dict (entries : List (String × PyValue))
  | other

/-- JSON whitespace. -/
def isJsonWs (c : Char) : Bool :=
  c == ' ' || c == '\t' || c == '\n' || c == '\r'

/-- Opening curly bracket character. -/
def lbrace : Char := Char.ofNat 123

/-- Closing curly bracket character. -/
def rbrace : Char := Char.ofNat 125

/-- Body of a JSON string literal after the opening quote; returns the
decoded characters and the remainder after the closing quote. -/
def parseStringBody : List Char → Option (List Char × List Char)
  | [] => none
  | c :: rest =>
    if c = '"' then some ([], rest)
    else if c = '\\' then
      match rest with
      | [] => none
      | e :: rest2 =>
        let esc : Option Char :=
          if e = '"' then some '"'
          else if e = '\\' then some '\\'
          else if e = '/' then some '/'
          else if e = 'n' then some '\n'
          else if e = 't' then some '\t'
          else if e = 'r' then some '\r'
          else none
        match esc with
        | none => none
        | some ch =>
          match parseStringBody rest2 with
          | none => none
          | some (cs, r) => some (ch :: cs, r)
    else
      match parseStringBody rest with
      | none => none
      | some (cs, r) => some (c :: cs, r)

mutual

/-- Modelled from the spec: Python's standard-library `json.loads`
(not part of this repository), restricted to the payload fragment the
handler tolerates — JSON objects with string keys whose values are strings
or nested objects. Inputs outside this fragment are treated as
unparseable. Fueled recursive-descent value parser. -/
def parseValueAux : Nat → List Char → Option (PyValue × List Char)
  | 0, _ => none
  | fuel + 1, cs =>
    match cs.dropWhile isJsonWs with
    | [] => none
    | c :: rest =>
      if c = '"' then
        match parseStringBody rest with
        | none => none
        | some (s, r) => some (PyValue.str (String.mk s), r)
      else if c = lbrace then
        match rest.dropWhile isJsonWs with
        | [] => none
        | d :: rest2 =>
          if d = rbrace then some (PyValue.dict [], rest2)
          else
            match parseMembersAux fuel rest with
            | none => none
            | some (es, r) => some (PyValue.dict es, r)
      else none

/-- Member list of a JSON object: `"key" : value` pairs separated by
commas, terminated by the closing bracket. -/
def parseMembersAux : Nat → List Char →
    Option (List (String × PyValue) × List Char)
  | 0, _ => none
  | fuel + 1, cs =>
    match cs.dropWhile isJsonWs with
    | [] => none
    | c :: rest =>
      if c = '"' then
        match parseStringBody rest with
        | none => none
        | some (k, r1) =>
          match r1.dropWhile isJsonWs with
          | [] => none
          | c2 :: r2 =>
            if c2 = ':' then
              match parseValueAux fuel r2 with
              | none => none
              | some (v, r3) =>
                match r3.dropWhile isJsonWs with
                | [] => none
                | c3 :: r4 =>
                  if c3 = ',' then
                    match parseMembersAux fuel r4 with
                    | none => none
                    | some (es, r5) => some ((String.mk k, v) :: es, r5)
                  else if c3 = rbrace then some ([(String.mk k, v)], r4)
                  else none
            else none
      else none

end

/-- Function `json.loads` on a whole document: the parse must consume everything
but trailing whitespace. -/
def json_loads (s : String) : Option PyValue :=
  match parseValueAux (s.length + 1) s.data with
  | none => none
  | some (v, rest) =>
    match rest.dropWhile isJsonWs with
    | [] => some v
    | _ :: _ => none

/-- Python `dict.get(k)` on parsed entries; for objects produced by
`json.loads` a duplicated key keeps its last occurrence. -/
def pyDictGet (es : List (String × PyValue)) (k : String) : Option PyValue :=
  (es.reverse.find? (fun p => p.1 == k)).map (fun p => p.2)

/-- The fixed fallback reason string of the handler. -/
def defaultReason : String := "Linguistic ceiling reached"

/-- The trigger_assessment branch of
`InterviewAgent.event_handler` for function-call-arguments-done events:
if the arguments payload is a string, run it through `json.loads`,
falling back to an empty dict on a parse error; then take the dict's
"reason" entry, defaulting to the fixed fallback string whenever the
payload is not a dict or has no "reason" field. -/
def parse_trigger_reason (arguments : PyValue) : PyValue :=
  let args :=
    match arguments with
    | PyValue.str s =>
      match json_loads s with
      | some v => v
      | none => PyValue.dict []
    | v => v
  match args with
  | PyValue.dict es =>
    match pyDictGet es "reason" with
    | some v => v
    | none => PyValue.str defaultReason
  | _ => PyValue.str defaultReason

/-- The JSON-string-encoded payload from the claim. -/
def exampleTriggerArgs : String := "\x7b\"reason\": \"A2 ceiling\"\x7d"

/-- C9: argument parsing is a total function — a structured-object payload
yields its "reason" entry (default if absent), a string payload that
parses to an object yields that object's "reason" entry, an unparseable
string (and any non-string non-dict payload) yields the fixed default,
and the claim's concrete JSON-string payload yields "A2 ceiling". -/
theorem parse_trigger_reason_spec :
    (∀ es, parse_trigger_reason (PyValue.dict es) =
      (match pyDictGet es "reason" with
       | some v => v
       | none => PyValue.str defaultReason)) ∧
    (∀ s, json_loads s = none →
      parse_trigger_reason (PyValue.str s) = PyValue.str defaultReason) ∧
    (∀ s es, json_loads s = some (PyValue.dict es) →
      parse_trigger_reason (PyValue.str s) =
        (match pyDictGet es "reason" with
         | some v => v
         | none => PyValue.str defaultReason)) ∧
    parse_trigger_reason (PyValue.str exampleTriggerArgs) =
      PyValue.str "A2 ceiling" ∧
    parse_trigger_reason (PyValue.str "not a json payload") =
      PyValue.str defaultReason ∧
    parse_trigger_reason PyValue.other = PyValue.str defaultReason := by
  refine ⟨fun es => rfl, fun s h => ?_, fun s es h => ?_, rfl, rfl, rfl⟩
  · simp only [parse_trigger_reason, h]
    rfl
  · simp only [parse_trigger_reason, h]

/-- Witness for C9: the general unparseable-string and parsed-object
clauses applied at concrete payloads. -/
theorem parse_trigger_reason_spec_witness :
    parse_trigger_reason (PyValue.str "garbage \x7b") =
      PyValue.str defaultReason ∧
    parse_trigger_reason (PyValue.str "\x7b\"other\": \"x\"\x7d") =
      PyValue.str defaultReason :=
  ⟨parse_trigger_reason_spec.2.1 "garbage \x7b" rfl,
   parse_trigger_reason_spec.2.2.1 "\x7b\"other\": \"x\"\x7d"
     [("other", PyValue.str "x")] rfl⟩

/-! ### C10: acknowledgment/goodbye keyword matching -/

/-- Whitespace stripped by Python `str.strip()` (ASCII whitespace; the
transcripts and keywords involved contain no exotic Unicode spaces). -/
def isPySpace (c : Char) : Bool :=
  c == ' ' || c == '\t' || c == '\n' || c == '\r' || c == '\x0b' || c == '\x0c'

/-- Python `str.lower()`. `Char.toLower` agrees with it on ASCII, and
Korean Hangul is caseless, so it agrees on every keyword below. -/
def lowerChars (cs : List Char) : List Char := cs.map Char.toLower

/-- Python `str.strip()`: drop leading and trailing whitespace. -/
def pyStrip (cs : List Char) : List Char :=
  ((cs.dropWhile isPySpace).reverse.dropWhile isPySpace).reverse

/-- The fixed Korean acknowledgment keywords of
`InterviewAgent._is_user_acknowledgment`. -/
def koreanKeywords : List (List Char) :=
  [String.data "감사합니다", String.data "감사", String.data "고마워",
   String.data "고맙습니다", String.data "알겠습니다", String.data "알겠어요",
   String.data "알았어요", String.data "네, 알겠습니다", String.data "안녕히",
   String.data "안녕", String.data "잘 가", String.data "수고하세요",
   String.data "좋아요", String.data "괜찮아요"]

/-- The fixed English acknowledgment keywords. -/
def englishKeywords : List (List Char) :=
  [String.data "thank", String.data "thanks", String.data "bye",
   String.data "goodbye", String.data "got it", String.data "understand",
   String.data "okay", String.data "ok", String.data "great",
   String.data "good", String.data "see you"]

/-- Method `InterviewAgent._is_user_acknowledgment`: lowercase and strip the
transcript, then test each Korean keyword and each English keyword for
substring containment (Python `in`), first match wins. -/
def is_user_acknowledgment (transcript : List Char) : Bool :=
  let tl := pyStrip (lowerChars transcript)
  koreanKeywords.any (fun k => decide (k <:+: tl)) ||
    englishKeywords.any (fun k => decide (k <:+: tl))

/-- The user-input-transcription branch of the event router: during an
active assessment (any state other than INACTIVE) a transcript matching
the keyword test ends the session early. -/
def transcription_ends_session (st : AssessmentState)
    (transcript : List Char) : Bool :=
  if st = AssessmentState.inactive then false
  else is_user_acknowledgment transcript

/-- A keyword neither starts nor ends with whitespace (true of every
keyword above), so stripping the transcript cannot destroy a match. -/
def edgeOk (kw : List Char) : Bool :=
  (match kw.head? with
   | some c => ! isPySpace c
   | none => false) &&
  (match kw.getLast? with
   | some c => ! isPySpace c
   | none => false)

theorem allKeywords_edgeOk :
    (koreanKeywords ++ englishKeywords).all edgeOk = true := by decide

/-- A pattern whose first character the predicate rejects stays a
substring after `dropWhile`. -/
theorem isSub_dropWhile (p : Char → Bool) (kw s : List Char)
    (hk : ∀ c, kw.head? = some c → p c = false) (h : kw <:+: s) :
    kw <:+: s.dropWhile p := by
  induction s with
  | nil => simpa using h
  | cons x s ih =>
    by_cases hx : p x = true
    · rw [List.dropWhile_cons, if_pos hx]
      apply ih
      rcases List.infix_cons_iff.mp h with hpre | hinf
      · cases kw with
        | nil => exact List.nil_infix
        | cons c kw' =>
          obtain ⟨hcx, -⟩ := List.cons_prefix_cons.mp hpre
          have hc := hk c rfl
          rw [hcx, hx] at hc
          exact absurd hc (by simp)
      · exact hinf
    · rw [List.dropWhile_cons, if_neg hx]
      exact h

/-- A keyword with non-whitespace first and last characters survives
`pyStrip` of its haystack. -/
theorem isSub_pyStrip (kw s : List Char) (hedge : edgeOk kw = true)
    (h : kw <:+: s) : kw <:+: pyStrip s := by
  have hparts : (match kw.head? with
      | some c => ! isPySpace c
      | none => false) = true ∧
      (match kw.getLast? with
       | some c => ! isPySpace c
       | none => false) = true := by
    rwa [edgeOk, Bool.and_eq_true] at hedge
  have hhead : ∀ c, kw.head? = some c → isPySpace c = false := by
    intro c hc
    have h1 := hparts.1
    rw [hc] at h1
    simpa using h1
  have hlast : ∀ c, kw.reverse.head? = some c → isPySpace c = false := by
    intro c hc
    rw [List.head?_reverse] at hc
    have h2 := hparts.2
    rw [hc] at h2
    simpa using h2
  have h1 : kw <:+: s.dropWhile isPySpace := isSub_dropWhile _ kw s hhead h
  have h2 : kw.reverse <:+: (s.dropWhile isPySpace).reverse :=
    List.reverse_infix.mpr h1
  have h3 : kw.reverse <:+:
      ((s.dropWhile isPySpace).reverse).dropWhile isPySpace :=
    isSub_dropWhile _ _ _ hlast h2
  have h4 := List.reverse_infix.mpr h3
  rw [List.reverse_reverse] at h4
  exact h4

/-- The stripped string is a substring of the original. -/
theorem pyStrip_isSub (s : List Char) : pyStrip s <:+: s := by
  have h1 : s.dropWhile isPySpace <:+ s := List.dropWhile_suffix isPySpace
  have h2 : (s.dropWhile isPySpace).reverse.dropWhile isPySpace <:+
      (s.dropWhile isPySpace).reverse := List.dropWhile_suffix isPySpace
  have h3 : pyStrip s <+: s.dropWhile isPySpace := by
    have h4 := List.reverse_prefix.mpr h2
    rw [List.reverse_reverse] at h4
    exact h4
  have h5 := List.IsPrefix.isInfix h3
  have h6 := List.IsSuffix.isInfix h1
  exact h5.trans h6

/-- C10: the keyword check is a pure case-insensitive substring test —
it returns true exactly when some fixed Korean or English keyword occurs
as a substring of the lowercased transcript (even inside a longer word:
"broken" contains "ok" and matches), and during an active assessment such
a transcript ends the session early. -/
theorem is_user_acknowledgment_spec (t : List Char) (st : AssessmentState) :
    (is_user_acknowledgment t = true ↔
      ∃ kw, kw ∈ koreanKeywords ++ englishKeywords ∧
        kw <:+: lowerChars t) ∧
    (st ≠ AssessmentState.inactive → is_user_acknowledgment t = true →
      transcription_ends_session st t = true) ∧
    is_user_acknowledgment (String.data "broken") = true := by
  refine ⟨?_, ?_, rfl⟩
  · unfold is_user_acknowledgment
    constructor
    · intro h
      rw [Bool.or_eq_true] at h
      rcases h with h | h
      all_goals
        rw [List.any_eq_true] at h
        obtain ⟨kw, hmem, hsub⟩ := h
        rw [decide_eq_true_iff] at hsub
        refine ⟨kw, by simp [hmem], ?_⟩
        exact List.IsInfix.trans hsub (pyStrip_isSub (lowerChars t))
    · rintro ⟨kw, hmem, hsub⟩
      have hedge : edgeOk kw = true := by
        have hall := allKeywords_edgeOk
        rw [List.all_eq_true] at hall
        exact hall kw hmem
      have hsub' : kw <:+: pyStrip (lowerChars t) :=
        isSub_pyStrip kw _ hedge hsub
      rw [Bool.or_eq_true]
      rcases List.mem_append.mp hmem with hk | hk
      · exact Or.inl (List.any_eq_true.mpr ⟨kw, hk, decide_eq_true hsub'⟩)
      · exact Or.inr (List.any_eq_true.mpr ⟨kw, hk, decide_eq_true hsub'⟩)
  · intro hst h
    unfold transcription_ends_session
    rw [if_neg hst]
    exact h

/-- Witness for C10: "broken" spoken while TRIGGERED ends the session. -/
theorem is_user_acknowledgment_spec_witness :
    transcription_ends_session AssessmentState.triggered
      (String.data "broken") = true :=
  (is_user_acknowledgment_spec (String.data "broken")
    AssessmentState.triggered).2.1 (by decide) rfl

end VoiceApp
